import Mathlib

set_option maxRecDepth 100000

/-!
Verification of the HTTP Digest Authentication transport (package `digest`,
vendored in `tr064/adapter.go`).  The Go source is shallowly embedded below:
pure helpers (`h`, `kd`, `ha1`, `ha2`) become Lean functions over `Nat`
byte lists (machine words are `Nat` reduced mod 2^32 where the Go code
relies on 32-bit wrap-around), the stateful pieces (`credentials.resp`,
`Transport.RoundTrip`) pass their state explicitly, and fallible code
returns an explicit result value.  The underlying `http.RoundTripper` is
modelled as an oracle list of network outcomes consumed in order, and the
random client-nonce source as an extra string parameter.
-/

namespace digest

/-! ### MD5 (crypto/md5), on byte lists -/

def mask32 : Nat := 4294967295

def rotl32 (x s : Nat) : Nat :=
  ((x <<< s) ||| (x >>> (32 - s))) &&& mask32

/-- The 64 per-step sine-derived constants of RFC 1321. -/
def md5K : List Nat :=
  [0xd76aa478, 0xe8c7b756, 0x242070db, 0xc1bdceee,
   0xf57c0faf, 0x4787c62a, 0xa8304613, 0xfd469501,
   0x698098d8, 0x8b44f7af, 0xffff5bb1, 0x895cd7be,
   0x6b901122, 0xfd987193, 0xa679438e, 0x49b40821,
   0xf61e2562, 0xc040b340, 0x265e5a51, 0xe9b6c7aa,
   0xd62f105d, 0x02441453, 0xd8a1e681, 0xe7d3fbc8,
   0x21e1cde6, 0xc33707d6, 0xf4d50d87, 0x455a14ed,
   0xa9e3e905, 0xfcefa3f8, 0x676f02d9, 0x8d2a4c8a,
   0xfffa3942, 0x8771f681, 0x6d9d6122, 0xfde5380c,
   0xa4beea44, 0x4bdecfa9, 0xf6bb4b60, 0xbebfbc70,
   0x289b7ec6, 0xeaa127fa, 0xd4ef3085, 0x04881d05,
   0xd9d4d039, 0xe6db99e5, 0x1fa27cf8, 0xc4ac5665,
   0xf4292244, 0x432aff97, 0xab9423a7, 0xfc93a039,
   0x655b59c3, 0x8f0ccc92, 0xffeff47d, 0x85845dd1,
   0x6fa87e4f, 0xfe2ce6e0, 0xa3014314, 0x4e0811a1,
   0xf7537e82, 0xbd3af235, 0x2ad7d2bb, 0xeb86d391]

/-- The 64 per-step left-rotation amounts of RFC 1321. -/
def md5S : List Nat :=
  [7, 12, 17, 22, 7, 12, 17, 22, 7, 12, 17, 22, 7, 12, 17, 22,
   5, 9, 14, 20, 5, 9, 14, 20, 5, 9, 14, 20, 5, 9, 14, 20,
   4, 11, 16, 23, 4, 11, 16, 23, 4, 11, 16, 23, 4, 11, 16, 23,
   6, 10, 15, 21, 6, 10, 15, 21, 6, 10, 15, 21, 6, 10, 15, 21]

/-- The round-dependent mixing function of RFC 1321. -/
def md5F (i b c d : Nat) : Nat :=
  if i < 16 then (b &&& c) ||| ((mask32 ^^^ b) &&& d)
  else if i < 32 then (d &&& b) ||| ((mask32 ^^^ d) &&& c)
  else if i < 48 then b ^^^ c ^^^ d
  else c ^^^ (b ||| (mask32 ^^^ d))

/-- The round-dependent message-word index of RFC 1321. -/
def md5G (i : Nat) : Nat :=
  if i < 16 then i
  else if i < 32 then (5 * i + 1) % 16
  else if i < 48 then (3 * i + 5) % 16
  else (7 * i) % 16

def md5Step (m : List Nat) (st : Nat × Nat × Nat × Nat) (i : Nat) :
    Nat × Nat × Nat × Nat :=
  match st with
  | (a, b, c, d) =>
    let f := (md5F i b c d + a + md5K.getD i 0 + m.getD (md5G i) 0) &&& mask32
    (d, (b + rotl32 f (md5S.getD i 0)) &&& mask32, b, c)

def md5Block (st : Nat × Nat × Nat × Nat) (m : List Nat) :
    Nat × Nat × Nat × Nat :=
  match st, (List.range 64).foldl (md5Step m) st with
  | (a0, b0, c0, d0), (a, b, c, d) =>
    ((a0 + a) &&& mask32, (b0 + b) &&& mask32,
     (c0 + c) &&& mask32, (d0 + d) &&& mask32)

/-- Assemble little-endian 32-bit words from bytes. -/
def bytesToWords : List Nat → List Nat
  | b0 :: b1 :: b2 :: b3 :: rest =>
      (b0 + (b1 <<< 8) + (b2 <<< 16) + (b3 <<< 24)) :: bytesToWords rest
  | _ => []

/-- Split a byte list into 64-byte chunks (fuel keeps recursion structural). -/
def chunks64Aux : Nat → List Nat → List (List Nat)
  | 0, _ => []
  | _, [] => []
  | fuel + 1, l => l.take 64 :: chunks64Aux fuel (l.drop 64)

def chunks64 (l : List Nat) : List (List Nat) :=
  chunks64Aux (l.length + 1) l

/-- Little-endian 8-byte encoding of the 64-bit message bit length. -/
def lenBytes (len : Nat) : List Nat :=
  let bits := (len * 8) % (2 ^ 64)
  [bits &&& 255, (bits >>> 8) &&& 255, (bits >>> 16) &&& 255,
   (bits >>> 24) &&& 255, (bits >>> 32) &&& 255, (bits >>> 40) &&& 255,
   (bits >>> 48) &&& 255, (bits >>> 56) &&& 255]

/-- RFC 1321 padding: a 0x80 byte, zeros to 56 mod 64, then the bit length. -/
def md5Pad (msg : List Nat) : List Nat :=
  let len := msg.length
  let zeros := (64 + 56 - ((len + 1) % 64)) % 64
  msg ++ [0x80] ++ List.replicate zeros 0 ++ lenBytes len

def wordBytes (w : Nat) : List Nat :=
  [w &&& 255, (w >>> 8) &&& 255, (w >>> 16) &&& 255, (w >>> 24) &&& 255]

/-- The 16-byte MD5 digest of a byte list. -/
def md5Bytes (msg : List Nat) : List Nat :=
  match (chunks64 (md5Pad msg)).foldl
      (fun st chunk => md5Block st (bytesToWords chunk))
      (0x67452301, 0xefcdab89, 0x98badcfe, 0x10325476) with
  | (a, b, c, d) => wordBytes a ++ wordBytes b ++ wordBytes c ++ wordBytes d

/-! ### Hex formatting (fmt.Sprintf "%x" and "%08x") -/

def hexDigit (n : Nat) : Char :=
  if n < 10 then Char.ofNat (48 + n) else Char.ofNat (87 + n)

def byteHex (b : Nat) : List Char :=
  [hexDigit (b / 16), hexDigit (b % 16)]

/-- Lowercase hex of a byte list, two digits per byte (Go `%x` on a digest). -/
def bytesHex (bs : List Nat) : String :=
  ⟨bs.foldr (fun b acc => byteHex b ++ acc) []⟩

def natHexAux : Nat → Nat → List Char
  | 0, _ => []
  | _, 0 => []
  | fuel + 1, n => natHexAux fuel (n / 16) ++ [hexDigit (n % 16)]

/-- Lowercase hex of a natural number, no padding (Go `%x` on an int). -/
def natHex (n : Nat) : String :=
  if n = 0 then "0" else ⟨natHexAux n n⟩

/-- Go `fmt.Sprintf "%08x"`: hex, left zero-padded to at least 8 digits. -/
def hex8 (n : Nat) : String :=
  let s := natHex n
  ⟨List.replicate (8 - s.length) '0'⟩ ++ s

/-! ### Strings as UTF-8 byte sequences (io.WriteString writes UTF-8) -/

def utf8Bytes (c : Char) : List Nat :=
  let n := c.toNat
  if n < 128 then [n]
  else if n < 2048 then [192 + (n >>> 6), 128 + (n &&& 63)]
  else if n < 65536 then
    [224 + (n >>> 12), 128 + ((n >>> 6) &&& 63), 128 + (n &&& 63)]
  else
    [240 + (n >>> 18), 128 + ((n >>> 12) &&& 63), 128 + ((n >>> 6) &&& 63),
     128 + (n &&& 63)]

def strBytes (s : String) : List Nat :=
  s.data.foldr (fun c acc => utf8Bytes c ++ acc) []

/-- Go `h(data)`: lowercase-hex MD5 of a string. -/
def h (data : String) : String :=
  bytesHex (md5Bytes (strBytes data))

/-- Go `kd(secret, data)`: `h(secret ":" data)`. -/
def kd (secret data : String) : String :=
  h (secret ++ ":" ++ data)

/-! ### Go strings helpers used by parseChallenge -/

/-- The whitespace cutset `" \n\r\t"` used by parseChallenge. -/
def wsChars : List Char := [' ', '\n', '\r', '\t']

/-- The cutset `"\""` used to strip quotes from parameter values. -/
def qsChars : List Char := ['"']

/-- Go `strings.Trim`: remove any character of the cutset from both ends. -/
def goTrimList (cutset : List Char) (l : List Char) : List Char :=
  ((l.dropWhile (fun c => cutset.contains c)).reverse.dropWhile
    (fun c => cutset.contains c)).reverse

def goTrim (s : String) (cutset : List Char) : String :=
  ⟨goTrimList cutset s.data⟩

/-- Go `strings.HasPrefix s p`. -/
def goStartsWithList : List Char → List Char → Bool
  | _, [] => true
  | [], _ :: _ => false
  | c :: cs, p :: ps => c = p && goStartsWithList cs ps

def goStartsWith (s p : String) : Bool :=
  goStartsWithList s.data p.data

/-- Go `strings.Split s ","` on the character level: split at every comma;
the empty input yields one empty field, as in Go. -/
def splitOnComma : List Char → List (List Char)
  | [] => [[]]
  | c :: rest =>
    match splitOnComma rest with
    | [] => [[c]]
    | f :: t => if c = ',' then [] :: f :: t else (c :: f) :: t

/-- Go `strings.SplitN s "=" 2`: the part before the first `=` and, when an
`=` exists, the remainder after it (Go returns a 1- or 2-element slice). -/
def splitN2Eq : List Char → List Char × Option (List Char)
  | [] => ([], none)
  | c :: rest =>
    if c = '=' then ([], some rest)
    else
      match splitN2Eq rest with
      | (k, v) => (c :: k, v)

/-! ### Challenge parsing -/

/-- The `challenge` struct; all fields default to the Go zero value. -/
structure challenge where
  Realm : String := ""
  Domain : String := ""
  Nonce : String := ""
  Opaque : String := ""
  Stale : String := ""
  Algorithm : String := ""
  Qop : String := ""
deriving DecidableEq, Repr

/-- Outcome of `parseChallenge`: a challenge, the `ErrBadChallenge` error, or
a runtime index-out-of-range panic (Go `r[1]` on a 1-element slice). -/
inductive ParseResult where
  | ok (c : challenge)
  | badChallenge
  | indexOutOfRange
deriving DecidableEq, Repr

/-- The switch body of parseChallenge's loop: each recognized key reads
`r[1]`, which panics when the pair had no `=`; an unrecognized key returns
`ErrBadChallenge`. -/
def parseParams : List (List Char) → challenge → ParseResult
  | [], c => .ok c
  | p :: rest, c =>
    match splitN2Eq p with
    | (k, v?) =>
      let key : List Char := goTrimList [' '] k
      if key = "realm".data then
        match v? with
        | some v => parseParams rest { c with Realm := ⟨goTrimList qsChars v⟩ }
        | none => .indexOutOfRange
      else if key = "domain".data then
        match v? with
        | some v => parseParams rest { c with Domain := ⟨goTrimList qsChars v⟩ }
        | none => .indexOutOfRange
      else if key = "nonce".data then
        match v? with
        | some v => parseParams rest { c with Nonce := ⟨goTrimList qsChars v⟩ }
        | none => .indexOutOfRange
      else if key = "opaque".data then
        match v? with
        | some v => parseParams rest { c with Opaque := ⟨goTrimList qsChars v⟩ }
        | none => .indexOutOfRange
      else if key = "stale".data then
        match v? with
        | some v => parseParams rest { c with Stale := ⟨goTrimList qsChars v⟩ }
        | none => .indexOutOfRange
      else if key = "algorithm".data then
        match v? with
        | some v =>
            parseParams rest { c with Algorithm := ⟨goTrimList qsChars v⟩ }
        | none => .indexOutOfRange
      else if key = "qop".data then
        match v? with
        | some v => parseParams rest { c with Qop := ⟨goTrimList qsChars v⟩ }
        | none => .indexOutOfRange
      else .badChallenge

/-- Go `parseChallenge`: trim, require the `"Digest "` prefix, trim again,
split on commas and fold the key/value pairs over a challenge whose
algorithm defaults to `"MD5"`. -/
def parseChallenge (input : String) : ParseResult :=
  let s := goTrimList wsChars input.data
  if goStartsWithList s "Digest ".data then
    parseParams (splitOnComma (goTrimList wsChars (s.drop 7)))
      { Algorithm := "MD5" }
  else .badChallenge

/-! ### Credentials -/

/-- Error values of the digest package (plus the wrapped parse failure and a
propagated network error, which RoundTrip can also return). -/
inductive DigestError where
  | badChallenge
  | algNotImplemented
  | nilTransport
  | challengeParseFailed
  | netErr (msg : String)
deriving DecidableEq, Repr

/-- The `credentials` struct. -/
structure credentials where
  Username : String
  Realm : String
  Nonce : String
  DigestURI : String
  Algorithm : String
  Cnonce : String
  Opaque : String
  MessageQop : String
  NonceCount : Nat
  method : String
  password : String
deriving DecidableEq, Repr

def credentials.ha1 (c : credentials) : String :=
  h (c.Username ++ ":" ++ c.Realm ++ ":" ++ c.password)

def credentials.ha2 (c : credentials) : String :=
  h (c.method ++ ":" ++ c.DigestURI)

/-- Go `credentials.resp`: increments NonceCount, then computes the digest
for qop `"auth"` (choosing the supplied cnonce, else the random hex string
`rnd` standing for `crypto/rand` output) or for empty qop, and otherwise
returns `("", ErrAlgNotImplemented)`.  The updated struct is returned
alongside Go's `(string, error)` pair. -/
def credentials.resp (c : credentials) (cnonce rnd : String) :
    credentials × String × Option DigestError :=
  let c := { c with NonceCount := c.NonceCount + 1 }
  if c.MessageQop = "auth" then
    let c := { c with Cnonce := if cnonce ≠ "" then cnonce else rnd }
    (c, kd c.ha1 (c.Nonce ++ ":" ++ hex8 c.NonceCount ++ ":" ++ c.Cnonce
        ++ ":" ++ c.MessageQop ++ ":" ++ c.ha2), none)
  else if c.MessageQop = "" then
    (c, kd c.ha1 (c.Nonce ++ ":" ++ c.ha2), none)
  else (c, "", some .algNotImplemented)

/-- The `Authorization` field list assembled by `credentials.authorize`
(lines building `sl`), in order. -/
def authFields (c : credentials) (resp : String) : List String :=
  let sl := ["username=\"" ++ c.Username ++ "\""]
  let sl := sl ++ ["realm=\"" ++ c.Realm ++ "\""]
  let sl := sl ++ ["nonce=\"" ++ c.Nonce ++ "\""]
  let sl := sl ++ ["uri=\"" ++ c.DigestURI ++ "\""]
  let sl := sl ++ ["response=\"" ++ resp ++ "\""]
  let sl := if c.Algorithm ≠ "" then
    sl ++ ["algorithm=\"" ++ c.Algorithm ++ "\""] else sl
  let sl := if c.Opaque ≠ "" then
    sl ++ ["opaque=\"" ++ c.Opaque ++ "\""] else sl
  if c.MessageQop ≠ "" then
    sl ++ ["qop=" ++ c.MessageQop, "nc=" ++ hex8 c.NonceCount,
           "cnonce=\"" ++ c.Cnonce ++ "\""]
  else sl

/-- Go `credentials.authorize`: reject any algorithm other than `"MD5"` and
any qop other than `"auth"`/empty with `ErrAlgNotImplemented`; otherwise
compute the response digest and assemble the `Digest ...` header value. -/
def credentials.authorize (c : credentials) (rnd : String) :
    credentials × String × Option DigestError :=
  if c.Algorithm ≠ "MD5" then (c, "", some .algNotImplemented)
  else if c.MessageQop ≠ "auth" && c.MessageQop ≠ "" then
    (c, "", some .algNotImplemented)
  else
    match c.resp "" rnd with
    | (c, _, some _) => (c, "", some .algNotImplemented)
    | (c, resp, none) =>
      (c, "Digest " ++ String.intercalate ", " (authFields c resp), none)

/-! ### The transport state machine -/

/-- An HTTP request: the parts of `http.Request` the digest transport reads
or writes.  `requestURI` is `req.URL.RequestURI()`; the body is a byte
list (the single-read stream's full content). -/
structure Request where
  method : String
  requestURI : String
  headers : List (String × String)
  body : List Nat
deriving DecidableEq, Repr

/-- An HTTP response: status code and headers. -/
structure Response where
  status : Nat
  headers : List (String × String)
deriving DecidableEq, Repr

/-- Header read (http.Header.Get): first entry with the key, else `""`. -/
def getHeader (hs : List (String × String)) (k : String) : String :=
  match hs.find? (fun p => p.1 = k) with
  | some p => p.2
  | none => ""

/-- Header write (http.Header.Set): replace the entry for the key. -/
def setHeader (hs : List (String × String)) (k v : String) :
    List (String × String) :=
  (k, v) :: hs.filter (fun p => p.1 ≠ k)

/-- One read step of `teeReadCloser`: bytes read from the wrapped stream are
also appended to the buffer (io.TeeReader). -/
def teeReadChunk (remaining buffer : List Nat) (n : Nat) :
    List Nat × List Nat × List Nat :=
  (remaining.take n, remaining.drop n, buffer ++ remaining.take n)

/-- Reading the teed stream to exhaustion: returns all bytes read and the
final buffer content. -/
def teeReadAllAux : List Nat → List Nat → List Nat × List Nat
  | [], buf => ([], buf)
  | b :: rest, buf =>
    match teeReadAllAux rest (buf ++ [b]) with
    | (r, buf2) => (b :: r, buf2)

/-- The `Transport` struct; `hasTransport` models whether the underlying
`t.Transport` RoundTripper is non-nil. -/
structure Transport where
  Username : String
  Password : String
  hasTransport : Bool
  auth : String
deriving DecidableEq, Repr

/-- Go `Transport.newCredentials`. -/
def Transport.newCredentials (t : Transport) (req : Request)
    (c : challenge) : credentials :=
  { Username := t.Username
    Realm := c.Realm
    Nonce := c.Nonce
    DigestURI := req.requestURI
    Algorithm := c.Algorithm
    Cnonce := ""
    Opaque := c.Opaque
    MessageQop := c.Qop
    NonceCount := 0
    method := req.method
    password := t.Password }

/-- The outcome of one underlying `t.Transport.RoundTrip` call: either a
network error (nil response) or a response. -/
inductive NetResult where
  | err (msg : String)
  | resp (r : Response)
deriving DecidableEq, Repr

/-- The observable outcome of a `Transport.RoundTrip` call: the transport's
state afterwards, the requests issued to the underlying transport in order,
ghost flags recording whether the challenge was parsed / a credential
computation was attempted / the Go code panicked, and the returned
`(resp, err)` pair. -/
structure RTOut where
  transport : Transport
  issued : List Request
  challengeParsed : Bool
  credsComputed : Bool
  panicked : Bool
  resp : Option Response
  err : Option DigestError
deriving DecidableEq, Repr

/-- The cached-auth reuse step of RoundTrip: when a cached `Authorization`
value exists, set it on the outgoing request. -/
def Transport.attachAuth (t : Transport) (req : Request) : Request :=
  if t.auth ≠ "" then
    { req with headers := setHeader req.headers "Authorization" t.auth }
  else req

/-- Go `Transport.RoundTrip`.  The underlying transport is the oracle list
of network outcomes, consumed in order (an exhausted oracle acts as a
network error); `rnd` stands for the random client-nonce source.  The
request body is teed into a buffer while the first attempt drains it; the
retry request copies the (possibly auth-bearing) headers, overwrites
`Authorization` with the fresh value, and replays the buffered body. -/
def Transport.RoundTrip (t : Transport) (oracle : List NetResult)
    (rnd : String) (req : Request) : RTOut :=
  if t.hasTransport = false then
    ⟨t, [], false, false, false, none, some .nilTransport⟩
  else
    let req := t.attachAuth req
    let buffer := (teeReadAllAux req.body []).2
    match oracle.headD (.err "no response") with
    | .err m => ⟨t, [req], false, false, false, none, some (.netErr m)⟩
    | .resp r1 =>
      if r1.status ≠ 401 then ⟨t, [req], false, false, false, some r1, none⟩
      else
        match parseChallenge (getHeader r1.headers "WWW-Authenticate") with
        | .indexOutOfRange => ⟨t, [req], true, false, true, none, none⟩
        | .badChallenge =>
          ⟨t, [req], true, false, false, some r1, some .challengeParseFailed⟩
        | .ok ch =>
          let cr := t.newCredentials req ch
          match cr.authorize rnd with
          | (_, a, e?) =>
            let t := { t with auth := a }
            match e? with
            | some e => ⟨t, [req], true, true, false, some r1, some e⟩
            | none =>
              let authReq :=
                { req with
                  headers := setHeader req.headers "Authorization" t.auth
                  body := buffer }
              match (oracle.drop 1).headD (.err "no response") with
              | .err m =>
                ⟨t, [req, authReq], true, true, false, none, some (.netErr m)⟩
              | .resp r2 =>
                ⟨t, [req, authReq], true, true, false, some r2, none⟩

/-! ### Concrete fixtures for witness theorems -/

def tW : Transport := ⟨"u", "p", true, ""⟩

def tCachedW : Transport := ⟨"u", "p", true, "Digest cached"⟩

def reqW : Request := ⟨"GET", "/a?b=1", [("Accept", "x")], [1, 2, 3]⟩

def chalW : String := "Digest realm=\"r\", nonce=\"n\", qop=auth"

def r401W : Response := ⟨401, [("WWW-Authenticate", chalW)]⟩

def r200W : Response := ⟨200, []⟩

def chW : challenge := ⟨"r", "", "n", "", "", "MD5", "auth"⟩

def chalBadAlgW : String := "Digest realm=\"r\", nonce=\"n\", algorithm=MD5-sess"

def r401BadAlgW : Response := ⟨401, [("WWW-Authenticate", chalBadAlgW)]⟩

def chBadAlgW : challenge := ⟨"r", "", "n", "", "", "MD5-sess", ""⟩

def r401BasicW : Response := ⟨401, [("WWW-Authenticate", "Basic realm=\"x\"")]⟩

/-! ### Helper lemmas -/

theorem teeReadAllAux_eq (l buf : List Nat) :
    teeReadAllAux l buf = (l, buf ++ l) := by
  induction l generalizing buf with
  | nil => simp [teeReadAllAux]
  | cons b rest ih => simp [teeReadAllAux, ih]

theorem getHeader_setHeader (hs : List (String × String)) (k v : String) :
    getHeader (setHeader hs k v) k = v := by
  simp [getHeader, setHeader, List.find?]

theorem digest_append_ne_empty (s : String) : "Digest " ++ s ≠ "" := by
  intro hcon
  have hlen := congrArg String.length hcon
  rw [String.length_append] at hlen
  have h7 : ("Digest " : String).length = 7 := by decide
  have h0 : ("" : String).length = 0 := by decide
  omega

theorem resp_ok_of_qop (c : credentials) (cn rnd : String)
    (hq : c.MessageQop = "auth" ∨ c.MessageQop = "") :
    (c.resp cn rnd).2.2 = none := by
  rcases hq with hq | hq <;> simp [credentials.resp, hq]

theorem authorize_ok_of_supported (c : credentials) (rnd : String)
    (ha : c.Algorithm = "MD5")
    (hq : c.MessageQop = "auth" ∨ c.MessageQop = "") :
    (c.authorize rnd).2.2 = none ∧
    ∃ s, (c.authorize rnd).2.1 = "Digest " ++ s := by
  have hr := resp_ok_of_qop c "" rnd hq
  unfold credentials.authorize
  rcases hres : c.resp "" rnd with ⟨c1, s1, e1⟩
  rw [hres] at hr
  simp at hr
  subst hr
  rcases hq with hq | hq <;> simp [ha, hq, hres]

theorem authorize_err_of_unsupported (c : credentials) (rnd : String)
    (hbad : c.Algorithm ≠ "MD5" ∨ (c.MessageQop ≠ "auth" ∧ c.MessageQop ≠ "")) :
    (c.authorize rnd).2.1 = "" ∧
    (c.authorize rnd).2.2 = some .algNotImplemented := by
  unfold credentials.authorize
  rcases hbad with hbad | ⟨hb1, hb2⟩
  · simp [hbad]
  · by_cases ha : c.Algorithm = "MD5" <;> simp [ha, hb1, hb2]

theorem resp_fst_NonceCount (c : credentials) (cn rnd : String) :
    ((c.resp cn rnd).1).NonceCount = c.NonceCount + 1 := by
  unfold credentials.resp
  by_cases h1 : c.MessageQop = "auth" <;> by_cases h2 : c.MessageQop = "" <;>
    simp [h1, h2]

theorem resp_fst_MessageQop (c : credentials) (cn rnd : String) :
    ((c.resp cn rnd).1).MessageQop = c.MessageQop := by
  unfold credentials.resp
  by_cases h1 : c.MessageQop = "auth" <;> by_cases h2 : c.MessageQop = "" <;>
    simp [h1, h2]

theorem attachAuth_body (t : Transport) (req : Request) :
    (t.attachAuth req).body = req.body := by
  unfold Transport.attachAuth
  split <;> rfl

theorem roundTrip_401_authorized_eq (t : Transport) (rnd : String)
    (req : Request) (r1 : Response) (rest : List NetResult) (ch : challenge)
    (c' : credentials) (a : String)
    (ht : t.hasTransport = true) (h1 : r1.status = 401)
    (hp : parseChallenge (getHeader r1.headers "WWW-Authenticate") = .ok ch)
    (hauth : (t.newCredentials (t.attachAuth req) ch).authorize rnd =
      (c', a, none)) :
    t.RoundTrip (.resp r1 :: rest) rnd req =
      (match rest.headD (.err "no response") with
      | .err m =>
        ⟨{ t with auth := a },
         [t.attachAuth req,
          { t.attachAuth req with
              headers := setHeader (t.attachAuth req).headers "Authorization" a
              body := req.body }],
         true, true, false, none, some (.netErr m)⟩
      | .resp r2 =>
        ⟨{ t with auth := a },
         [t.attachAuth req,
          { t.attachAuth req with
              headers := setHeader (t.attachAuth req).headers "Authorization" a
              body := req.body }],
         true, true, false, some r2, none⟩) := by
  unfold Transport.RoundTrip
  simp [ht, h1, hp, hauth, teeReadAllAux_eq, attachAuth_body]

theorem roundTrip_401_unauthorized_eq (t : Transport) (rnd : String)
    (req : Request) (r1 : Response) (rest : List NetResult) (ch : challenge)
    (c' : credentials) (a : String) (e : DigestError)
    (ht : t.hasTransport = true) (h1 : r1.status = 401)
    (hp : parseChallenge (getHeader r1.headers "WWW-Authenticate") = .ok ch)
    (hauth : (t.newCredentials (t.attachAuth req) ch).authorize rnd =
      (c', a, some e)) :
    t.RoundTrip (.resp r1 :: rest) rnd req =
      ⟨{ t with auth := a }, [t.attachAuth req], true, true, false,
       some r1, some e⟩ := by
  unfold Transport.RoundTrip
  simp [ht, h1, hp, hauth, teeReadAllAux_eq]

/-! ### Claim theorems -/

/-- C2: with qop empty (legacy RFC 2069 mode), the computed response digest
for the RFC 2617 example parameters equals
`"670fd8c2df070c60b045671b8b24ff02"`, and in general the legacy response is
`MD5(HA1 ":" nonce ":" HA2)` with `HA1 = MD5(username ":" realm ":"
password)` and `HA2 = MD5(method ":" digestURI)`, hex-lowercase. -/
theorem resp_rfc2617_legacy_example :
    (credentials.resp
      { Username := "Mufasa", Realm := "testrealm@host.com",
        Nonce := "dcd98b7102dd2f0e8b11d0f600bfb0c093",
        DigestURI := "/dir/index.html", Algorithm := "MD5", Cnonce := "",
        Opaque := "", MessageQop := "", NonceCount := 0,
        method := "GET", password := "Circle Of Life" } "" "").2.1 =
      "670fd8c2df070c60b045671b8b24ff02" ∧
    "670fd8c2df070c60b045671b8b24ff02" =
      h (h ("Mufasa" ++ ":" ++ "testrealm@host.com" ++ ":" ++ "Circle Of Life")
        ++ ":" ++ "dcd98b7102dd2f0e8b11d0f600bfb0c093" ++ ":"
        ++ h ("GET" ++ ":" ++ "/dir/index.html")) ∧
    (∀ (c : credentials) (cn rnd : String), c.MessageQop = "" →
      (c.resp cn rnd).2.1 = kd c.ha1 (c.Nonce ++ ":" ++ c.ha2) ∧
      (c.resp cn rnd).2.2 = none) := by
  refine ⟨by decide, by decide, ?_⟩
  intro c cn rnd hq
  simp [credentials.resp, credentials.ha1, credentials.ha2, kd, hq]

/-- C3: the claim says the challenge parser either returns a structured
challenge or fails with the bad-challenge error and never crashes.  The
code violates this: a recognized key without an `=` (for example the input
`"Digest realm"`) makes every recognized-key branch read `r[1]` on a
1-element slice, a runtime index-out-of-range panic; the panic propagates
out of `RoundTrip`. -/
theorem parseChallenge_missing_value_panics :
    parseChallenge "Digest realm" = .indexOutOfRange ∧
    parseChallenge "Digest realm=\"r\", nonce" = .indexOutOfRange ∧
    (Transport.RoundTrip ⟨"u", "p", true, ""⟩
      [.resp ⟨401, [("WWW-Authenticate", "Digest realm")]⟩] ""
      ⟨"GET", "/", [], []⟩).panicked = true := by
  decide

/-- C4: no call to RoundTrip ever issues more than two requests to the
underlying transport, whatever the responses are. -/
theorem roundTrip_at_most_two_requests (t : Transport)
    (oracle : List NetResult) (rnd : String) (req : Request) :
    (t.RoundTrip oracle rnd req).issued.length ≤ 2 := by
  simp only [Transport.RoundTrip]
  repeat' split
  all_goals simp

/-- C5: when the first underlying attempt returns a network error or a
non-401 response, RoundTrip issues exactly that one request, parses no
challenge, computes no credentials, leaves the transport untouched and
returns the response or error unchanged. -/
theorem roundTrip_single_attempt (t : Transport) (first : NetResult)
    (rest : List NetResult) (rnd : String) (req : Request)
    (ht : t.hasTransport = true) :
    (∀ m, first = .err m →
      t.RoundTrip (first :: rest) rnd req =
        ⟨t, [t.attachAuth req], false, false, false, none,
         some (.netErr m)⟩) ∧
    (∀ r1, first = .resp r1 → r1.status ≠ 401 →
      t.RoundTrip (first :: rest) rnd req =
        ⟨t, [t.attachAuth req], false, false, false, some r1, none⟩) := by
  constructor
  · rintro m rfl
    unfold Transport.RoundTrip
    simp [ht, teeReadAllAux_eq]
  · rintro r1 rfl hs
    unfold Transport.RoundTrip
    simp [ht, hs, teeReadAllAux_eq]

/-- C5 witness: a concrete 200-status first response goes through the
single-attempt path. -/
theorem roundTrip_single_attempt_witness :
    Transport.RoundTrip ⟨"u", "p", true, "cached"⟩ [.resp ⟨200, []⟩] ""
      ⟨"GET", "/x", [], [7]⟩ =
      ⟨⟨"u", "p", true, "cached"⟩,
       [Transport.attachAuth ⟨"u", "p", true, "cached"⟩ ⟨"GET", "/x", [], [7]⟩],
       false, false, false, some ⟨200, []⟩, none⟩ :=
  (roundTrip_single_attempt ⟨"u", "p", true, "cached"⟩ (.resp ⟨200, []⟩) [] ""
    ⟨"GET", "/x", [], [7]⟩ rfl).2 ⟨200, []⟩ rfl (by decide)

/-- C1: when the first underlying request answers 401 with a parsable,
supported challenge and the retry answers 200, RoundTrip issues exactly two
underlying requests, the retry's body bytes equal the original body bytes,
the retry carries a non-empty Authorization header, and the caller receives
the second response with no error. -/
theorem roundTrip_401_then_200 (t : Transport) (rnd : String) (req : Request)
    (r1 r2 : Response) (rest : List NetResult) (ch : challenge)
    (ht : t.hasTransport = true) (h1 : r1.status = 401)
    (_h2 : r2.status = 200)
    (hp : parseChallenge (getHeader r1.headers "WWW-Authenticate") = .ok ch)
    (ha : ch.Algorithm = "MD5") (hq : ch.Qop = "auth" ∨ ch.Qop = "") :
    (t.RoundTrip (.resp r1 :: .resp r2 :: rest) rnd req).issued.length = 2 ∧
    ((t.RoundTrip (.resp r1 :: .resp r2 :: rest) rnd req).issued.getD 1
      req).body = req.body ∧
    getHeader ((t.RoundTrip (.resp r1 :: .resp r2 :: rest) rnd
      req).issued.getD 1 req).headers "Authorization" ≠ "" ∧
    (t.RoundTrip (.resp r1 :: .resp r2 :: rest) rnd req).resp = some r2 ∧
    (t.RoundTrip (.resp r1 :: .resp r2 :: rest) rnd req).err = none := by
  obtain ⟨he, s, hs⟩ := authorize_ok_of_supported
    (t.newCredentials (t.attachAuth req) ch) rnd
    (by simpa [Transport.newCredentials] using ha)
    (by simpa [Transport.newCredentials] using hq)
  rcases hA : (t.newCredentials (t.attachAuth req) ch).authorize rnd
    with ⟨c', a, e?⟩
  rw [hA] at he hs
  simp at he hs
  subst he
  have heq := roundTrip_401_authorized_eq t rnd req r1 (.resp r2 :: rest)
    ch c' a ht h1 hp hA
  rw [heq]
  simp [getHeader_setHeader, hs, digest_append_ne_empty]

/-- C1 witness: a concrete 401-challenge/200 exchange. -/
theorem roundTrip_401_then_200_witness :
    (Transport.RoundTrip tW [.resp r401W, .resp r200W] "0123456789abcdef"
      reqW).issued.length = 2 ∧
    ((Transport.RoundTrip tW [.resp r401W, .resp r200W] "0123456789abcdef"
      reqW).issued.getD 1 reqW).body = reqW.body ∧
    getHeader ((Transport.RoundTrip tW [.resp r401W, .resp r200W]
      "0123456789abcdef" reqW).issued.getD 1 reqW).headers "Authorization"
      ≠ "" ∧
    (Transport.RoundTrip tW [.resp r401W, .resp r200W] "0123456789abcdef"
      reqW).resp = some r200W ∧
    (Transport.RoundTrip tW [.resp r401W, .resp r200W] "0123456789abcdef"
      reqW).err = none :=
  roundTrip_401_then_200 tW "0123456789abcdef" reqW r401W r200W [] chW
    (by decide) (by decide) (by decide) (by decide) (by decide)
    (Or.inl (by decide))

/-- C6 counterexample: the claim quantifies over every WWW-Authenticate
value not starting with the literal `"Digest "` prefix, but the code trims
surrounding whitespace first: a value with a leading space does not start
with `"Digest "`, yet it parses successfully and the transport retries with
no error instead of failing. -/
theorem roundTrip_prefix_counterexample :
    goStartsWith " Digest nonce=\"n\"" "Digest " = false ∧
    (Transport.RoundTrip ⟨"u", "p", true, ""⟩
      [.resp ⟨401, [("WWW-Authenticate", " Digest nonce=\"n\"")]⟩,
       .resp ⟨200, []⟩] "0123456789abcdef"
      ⟨"GET", "/", [], []⟩).issued.length = 2 ∧
    (Transport.RoundTrip ⟨"u", "p", true, ""⟩
      [.resp ⟨401, [("WWW-Authenticate", " Digest nonce=\"n\"")]⟩,
       .resp ⟨200, []⟩] "0123456789abcdef"
      ⟨"GET", "/", [], []⟩).err = none := by
  decide

/-- C6 (amended): when the first response is a 401 whose WWW-Authenticate
value, after trimming surrounding whitespace, does not start with the
literal `"Digest "` prefix, parsing fails with the bad-challenge error, no
retry is issued, and the original 401 response is returned together with
the wrapped parse error. -/
theorem roundTrip_non_digest_challenge (t : Transport) (rnd : String)
    (req : Request) (r1 : Response) (rest : List NetResult)
    (ht : t.hasTransport = true) (h1 : r1.status = 401)
    (hpre : goStartsWith
      (goTrim (getHeader r1.headers "WWW-Authenticate") wsChars)
      "Digest " = false) :
    parseChallenge (getHeader r1.headers "WWW-Authenticate") =
      .badChallenge ∧
    t.RoundTrip (.resp r1 :: rest) rnd req =
      ⟨t, [t.attachAuth req], true, false, false, some r1,
       some .challengeParseFailed⟩ := by
  have hpre' : goStartsWithList
      (goTrimList wsChars (getHeader r1.headers "WWW-Authenticate").data)
      "Digest ".data = false := by
    simpa [goStartsWith, goTrim] using hpre
  have hparse : parseChallenge (getHeader r1.headers "WWW-Authenticate") =
      .badChallenge := by
    unfold parseChallenge
    simp [hpre']
  refine ⟨hparse, ?_⟩
  unfold Transport.RoundTrip
  simp [ht, h1, hparse, teeReadAllAux_eq]

/-- C6 witness: a `Basic` challenge takes the no-retry error path. -/
theorem roundTrip_non_digest_challenge_witness :
    parseChallenge (getHeader r401BasicW.headers "WWW-Authenticate") =
      .badChallenge ∧
    Transport.RoundTrip tW [.resp r401BasicW] "" reqW =
      ⟨tW, [tW.attachAuth reqW], true, false, false, some r401BasicW,
       some .challengeParseFailed⟩ :=
  roundTrip_non_digest_challenge tW "" reqW r401BasicW [] (by decide)
    (by decide) (by decide)

/-- C7: any challenge algorithm other than exactly `"MD5"`, or any qop
other than `"auth"` or empty, makes every credential computation with those
parameters fail with the unsupported-algorithm error, and the transport
issues no retry for such a challenge. -/
theorem roundTrip_unsupported_algorithm (t : Transport) (rnd : String)
    (req : Request) (r1 : Response) (rest : List NetResult) (ch : challenge)
    (ht : t.hasTransport = true) (h1 : r1.status = 401)
    (hp : parseChallenge (getHeader r1.headers "WWW-Authenticate") = .ok ch)
    (hbad : ch.Algorithm ≠ "MD5" ∨ (ch.Qop ≠ "auth" ∧ ch.Qop ≠ "")) :
    (∀ c : credentials, c.Algorithm = ch.Algorithm →
      c.MessageQop = ch.Qop →
      (c.authorize rnd).2.1 = "" ∧
      (c.authorize rnd).2.2 = some .algNotImplemented) ∧
    (t.RoundTrip (.resp r1 :: rest) rnd req).issued.length = 1 ∧
    (t.RoundTrip (.resp r1 :: rest) rnd req).err =
      some .algNotImplemented := by
  have hgen : ∀ c : credentials, c.Algorithm = ch.Algorithm →
      c.MessageQop = ch.Qop →
      (c.authorize rnd).2.1 = "" ∧
      (c.authorize rnd).2.2 = some .algNotImplemented := by
    intro c hca hcq
    refine authorize_err_of_unsupported c rnd ?_
    rcases hbad with hb | ⟨hb1, hb2⟩
    · exact Or.inl (by rw [hca]; exact hb)
    · exact Or.inr ⟨by rw [hcq]; exact hb1, by rw [hcq]; exact hb2⟩
  refine ⟨hgen, ?_⟩
  have hcr := hgen (t.newCredentials (t.attachAuth req) ch) rfl rfl
  rcases hA : (t.newCredentials (t.attachAuth req) ch).authorize rnd
    with ⟨c', a, e?⟩
  rw [hA] at hcr
  simp at hcr
  obtain ⟨ha0, he0⟩ := hcr
  subst ha0
  subst he0
  have heq := roundTrip_401_unauthorized_eq t rnd req r1 rest ch c' ""
    .algNotImplemented ht h1 hp hA
  rw [heq]
  simp

/-- C7 witness: a concrete `MD5-sess` challenge is rejected without retry. -/
theorem roundTrip_unsupported_algorithm_witness :
    (∀ c : credentials, c.Algorithm = chBadAlgW.Algorithm →
      c.MessageQop = chBadAlgW.Qop →
      (c.authorize "").2.1 = "" ∧
      (c.authorize "").2.2 = some .algNotImplemented) ∧
    (Transport.RoundTrip tW [.resp r401BadAlgW] "" reqW).issued.length = 1 ∧
    (Transport.RoundTrip tW [.resp r401BadAlgW] "" reqW).err =
      some .algNotImplemented :=
  roundTrip_unsupported_algorithm tW "" reqW r401BadAlgW [] chBadAlgW
    (by decide) (by decide) (by decide) (Or.inl (by decide))

/-- C10: when a 401 challenge parses but the credential computation fails,
the transport's cached Authorization value is overwritten with the empty
string (discarding any previously cached credential) and the original 401
response is returned together with the error. -/
theorem roundTrip_auth_failure_clears_cache (t : Transport) (rnd : String)
    (req : Request) (r1 : Response) (rest : List NetResult) (ch : challenge)
    (ht : t.hasTransport = true) (h1 : r1.status = 401)
    (hp : parseChallenge (getHeader r1.headers "WWW-Authenticate") = .ok ch)
    (hbad : ch.Algorithm ≠ "MD5" ∨ (ch.Qop ≠ "auth" ∧ ch.Qop ≠ "")) :
    t.RoundTrip (.resp r1 :: rest) rnd req =
      ⟨{ t with auth := "" }, [t.attachAuth req], true, true, false,
       some r1, some .algNotImplemented⟩ := by
  have hcr := authorize_err_of_unsupported
    (t.newCredentials (t.attachAuth req) ch) rnd
    (by
      rcases hbad with hb | ⟨hb1, hb2⟩
      · exact Or.inl (by simpa [Transport.newCredentials] using hb)
      · exact Or.inr ⟨by simpa [Transport.newCredentials] using hb1,
          by simpa [Transport.newCredentials] using hb2⟩)
  rcases hA : (t.newCredentials (t.attachAuth req) ch).authorize rnd
    with ⟨c', a, e?⟩
  rw [hA] at hcr
  simp at hcr
  obtain ⟨ha0, he0⟩ := hcr
  subst ha0
  subst he0
  exact roundTrip_401_unauthorized_eq t rnd req r1 rest ch c' ""
    .algNotImplemented ht h1 hp hA

/-- C10 witness: a previously cached credential is wiped on the failing
`MD5-sess` challenge. -/
theorem roundTrip_auth_failure_clears_cache_witness :
    Transport.RoundTrip tCachedW [.resp r401BadAlgW] "" reqW =
      ⟨{ tCachedW with auth := "" }, [tCachedW.attachAuth reqW], true, true,
       false, some r401BadAlgW, some .algNotImplemented⟩ :=
  roundTrip_auth_failure_clears_cache tCachedW "" reqW r401BadAlgW []
    chBadAlgW (by decide) (by decide) (by decide) (Or.inl (by decide))

/-- C8: every call to the credential computation increments the owning
session's nonce-count by exactly one; a session built by newCredentials
starts at nonce-count 0; and the first authorization of a fresh session
under qop `"auth"` assembles the field `nc=00000001` into the header. -/
theorem resp_nonce_count :
    (∀ (c : credentials) (cn rnd : String),
      ((c.resp cn rnd).1).NonceCount = c.NonceCount + 1) ∧
    (∀ (t : Transport) (req : Request) (ch : challenge),
      (t.newCredentials req ch).NonceCount = 0) ∧
    (∀ (c : credentials) (rnd : String),
      c.NonceCount = 0 → c.MessageQop = "auth" → c.Algorithm = "MD5" →
      (c.authorize rnd).2.1 =
        "Digest " ++ String.intercalate ", "
          (authFields (c.resp "" rnd).1 (c.resp "" rnd).2.1) ∧
      "nc=00000001" ∈ authFields (c.resp "" rnd).1 (c.resp "" rnd).2.1) := by
  refine ⟨resp_fst_NonceCount, fun t req ch => rfl, ?_⟩
  intro c rnd h0 hq halg
  constructor
  · unfold credentials.authorize
    rcases hres : c.resp "" rnd with ⟨c1, s1, e1⟩
    have he1 : e1 = none := by
      have hok := resp_ok_of_qop c "" rnd (Or.inl hq)
      rw [hres] at hok
      simpa using hok
    subst he1
    simp [halg, hq, hres]
  · have hnc : "nc=" ++ hex8 ((c.resp "" rnd).1).NonceCount =
        "nc=00000001" := by
      rw [resp_fst_NonceCount, h0]
      decide
    have hq1 : ((c.resp "" rnd).1).MessageQop = "auth" := by
      rw [resp_fst_MessageQop, hq]
    unfold authFields
    rw [hq1]
    simp only [ne_eq]
    rw [if_pos (by decide)]
    refine List.mem_append_right _ ?_
    simp [hnc]

/-- C9: while a cached Authorization value is present, each request is sent
with that value attached; a non-401 answer involves no challenge parsing
and leaves the cache unchanged, and a fresh 401 replaces the cache with the
newly computed authorize result. -/
theorem roundTrip_cached_auth_reuse (t : Transport) (first : NetResult)
    (rest : List NetResult) (rnd : String) (req : Request)
    (ht : t.hasTransport = true) (hauth : t.auth ≠ "") :
    (∀ r, first = .resp r → r.status ≠ 401 →
      t.RoundTrip (first :: rest) rnd req =
        ⟨t, [{ req with
            headers := setHeader req.headers "Authorization" t.auth }],
         false, false, false, some r, none⟩) ∧
    (∀ r ch, first = .resp r → r.status = 401 →
      parseChallenge (getHeader r.headers "WWW-Authenticate") = .ok ch →
      (t.RoundTrip (first :: rest) rnd req).transport.auth =
        ((t.newCredentials (t.attachAuth req) ch).authorize rnd).2.1 ∧
      (t.RoundTrip (first :: rest) rnd req).challengeParsed = true) ∧
    (∀ (c c' : credentials) (a : String),
      c.authorize rnd = (c', a, none) → a ≠ "") := by
  have hattach : t.attachAuth req =
      { req with headers := setHeader req.headers "Authorization" t.auth } := by
    unfold Transport.attachAuth
    simp [hauth]
  refine ⟨?_, ?_, ?_⟩
  · rintro r rfl hs
    have := (roundTrip_single_attempt t (.resp r) rest rnd req ht).2 r rfl hs
    rw [this, hattach]
  · rintro r ch rfl h401 hp
    rcases hA : (t.newCredentials (t.attachAuth req) ch).authorize rnd
      with ⟨c', a, e?⟩
    cases e? with
    | some e =>
      have heq := roundTrip_401_unauthorized_eq t rnd req r rest ch c' a e
        ht h401 hp hA
      rw [heq]
      simp
    | none =>
      have heq := roundTrip_401_authorized_eq t rnd req r rest ch c' a
        ht h401 hp hA
      rw [heq]
      rcases rest.headD (.err "no response") with m | r2 <;> simp
  · intro c c' a hA
    unfold credentials.authorize at hA
    split at hA
    · simp at hA
    · split at hA
      · simp at hA
      · rcases hres : c.resp "" rnd with ⟨c1, s1, e1⟩
        rw [hres] at hA
        cases e1 with
        | some e => simp at hA
        | none =>
          intro hcon
          subst hcon
          rw [Prod.ext_iff, Prod.ext_iff] at hA
          obtain ⟨-, h2, -⟩ := hA
          dsimp only at h2
          exact digest_append_ne_empty _ h2

/-- C9 witness: a cached credential is attached unchanged on a 200. -/
theorem roundTrip_cached_auth_reuse_witness :
    Transport.RoundTrip tCachedW [.resp r200W] "" reqW =
      ⟨tCachedW, [{ reqW with
          headers := setHeader reqW.headers "Authorization" tCachedW.auth }],
       false, false, false, some r200W, none⟩ :=
  (roundTrip_cached_auth_reuse tCachedW (.resp r200W) [] "" reqW
    (by decide) (by decide)).1 r200W rfl (by decide)

end digest

example : digest.h "" = "d41d8cd98f00b204e9800998ecf8427e" := by decide
example : digest.h "abc" = "900150983cd24fb0d6963f7d28e17f72" := by decide
example :
    digest.parseChallenge
      "Digest realm=\"r@x\", nonce=\"abc\", qop=auth, algorithm=MD5" =
    .ok { Realm := "r@x", Nonce := "abc", Qop := "auth", Algorithm := "MD5" } := by
  decide
example : digest.parseChallenge "Digest realm" = .indexOutOfRange := by decide
example : digest.parseChallenge "Basic realm=\"x\"" = .badChallenge := by decide
example : digest.parseChallenge " Digest nonce=\"n\"" =
    .ok { Nonce := "n", Algorithm := "MD5" } := by decide
